import Mathlib

/-!
Verification of the Agent Orchestration & AI Provider Routing Core of the
forge-os-endgame-edition repository, shallowly embedded from
src/obsidian-council/core/agent_base.py and
src/obsidian-council/core/ai_service_manager.py.

External effects (AI provider calls, the analyze override, the Redis publish)
are modelled as explicit inputs of type Except String _, standing for a Python
call that either returns a value or raises an exception whose str() is the
carried string.  Python dicts are modelled as association lists with
dict-style insert (replace the key) and delete (drop the key); json.dumps /
json.loads are modelled as the identity between the Json value tree and the
wire, so the wire shape is the Json tree itself.
-/

namespace Council

/-- JSON value trees, the model of the JSON-serializable Python dicts carried
in message content, task data and analysis results. -/
inductive Json where
  | null : Json
  | bool : Bool → Json
  | num : Int → Json
  | str : String → Json
  | arr : List Json → Json
  | obj : List (String × Json) → Json

/-- Task and message priority levels, from the Priority enum of
agent_base.py (LOW = 1 .. EMERGENCY = 5). -/
inductive Priority where
  | low
  | medium
  | high
  | critical
  | emergency
deriving DecidableEq

/-- The integer value of a Priority member, as in Priority.LOW.value etc. -/
def Priority.value : Priority → Int
  | .low => 1
  | .medium => 2
  | .high => 3
  | .critical => 4
  | .emergency => 5

/-- Priority(v): look a Priority member up by value; Python raises ValueError
on an unknown value, modelled as none. -/
def Priority.ofValue : Int → Option Priority
  | 1 => some .low
  | 2 => some .medium
  | 3 => some .high
  | 4 => some .critical
  | 5 => some .emergency
  | _ => none

/-- A Python datetime, by its broken-down fields (no timezone, as produced by
datetime.now() in agent_base.py). -/
structure Datetime where
  year : Nat
  month : Nat
  day : Nat
  hour : Nat
  minute : Nat
  second : Nat
  microsecond : Nat
deriving DecidableEq

/-- Field bounds within which datetime.isoformat prints fixed-width zero-padded
fields.  Every real Python datetime satisfies these (its own bounds are
tighter: 1 ≤ month ≤ 12 and so on). -/
def Datetime.valid (d : Datetime) : Prop :=
  d.year < 10000 ∧ d.month < 100 ∧ d.day < 100 ∧ d.hour < 100 ∧
    d.minute < 100 ∧ d.second < 100 ∧ d.microsecond < 1000000

instance : DecidablePred Datetime.valid := fun d => by
  unfold Datetime.valid; infer_instance

/-- Two-digit zero-padded decimal rendering, as printf %02d for n < 100. -/
def pad2 (n : Nat) : List Char :=
  [Nat.digitChar (n / 10), Nat.digitChar (n % 10)]

/-- Four-digit zero-padded decimal rendering, as printf %04d for n < 10000. -/
def pad4 (n : Nat) : List Char :=
  pad2 (n / 100) ++ pad2 (n % 100)

/-- Six-digit zero-padded decimal rendering, as printf %06d for n < 1000000. -/
def pad6 (n : Nat) : List Char :=
  pad2 (n / 10000) ++ pad2 (n / 100 % 100) ++ pad2 (n % 100)

/-- datetime.isoformat() as a character list: YYYY-MM-DDTHH:MM:SS, with a
.ffffff suffix exactly when the microsecond field is nonzero. -/
def toIsoList (d : Datetime) : List Char :=
  pad4 d.year ++ '-' :: pad2 d.month ++ '-' :: pad2 d.day ++
    'T' :: pad2 d.hour ++ ':' :: pad2 d.minute ++ ':' :: pad2 d.second ++
    (if d.microsecond = 0 then [] else '.' :: pad6 d.microsecond)

/-- Numeric value of a decimal digit character. -/
def digitToNat (c : Char) : Nat := c.toNat - 48

/-- Read exactly two decimal digits, returning the value and the rest. -/
def parse2 : List Char → Option (Nat × List Char)
  | c1 :: c2 :: rest =>
    if c1.isDigit && c2.isDigit then
      some (digitToNat c1 * 10 + digitToNat c2, rest)
    else none
  | _ => none

/-- Require a fixed separator character, returning the rest. -/
def parseSep (c : Char) : List Char → Option (List Char)
  | d :: rest => if d = c then some rest else none
  | _ => none

/-- datetime.fromisoformat on the shapes datetime.isoformat emits:
YYYY-MM-DDTHH:MM:SS with an optional six-digit fraction. -/
def fromIsoList (s : List Char) : Option Datetime := do
  let (y1, s) ← parse2 s
  let (y2, s) ← parse2 s
  let s ← parseSep '-' s
  let (mo, s) ← parse2 s
  let s ← parseSep '-' s
  let (da, s) ← parse2 s
  let s ← parseSep 'T' s
  let (ho, s) ← parse2 s
  let s ← parseSep ':' s
  let (mi, s) ← parse2 s
  let s ← parseSep ':' s
  let (se, s) ← parse2 s
  if s = [] then
    some ⟨y1 * 100 + y2, mo, da, ho, mi, se, 0⟩
  else do
    let s ← parseSep '.' s
    let (u1, s) ← parse2 s
    let (u2, s) ← parse2 s
    let (u3, s) ← parse2 s
    if s = [] then
      some ⟨y1 * 100 + y2, mo, da, ho, mi, se, u1 * 10000 + u2 * 100 + u3⟩
    else none

/-- datetime.isoformat() on strings. -/
def toIso (d : Datetime) : String := String.mk (toIsoList d)

/-- datetime.fromisoformat on strings. -/
def fromIso (s : String) : Option Datetime := fromIsoList s.data

/-- AgentMessage from agent_base.py: the inter-agent communication envelope. -/
structure AgentMessage where
  id : String
  sender : String
  recipient : String
  message_type : String
  content : Json
  timestamp : Datetime
  priority : Priority

/-- serialize_agent_message: the wire dict json.dumps is applied to, with the
timestamp rendered by isoformat and the priority by its enum value. -/
def serialize_agent_message (m : AgentMessage) : Json :=
  .obj [("id", .str m.id),
        ("sender", .str m.sender),
        ("recipient", .str m.recipient),
        ("message_type", .str m.message_type),
        ("content", m.content),
        ("timestamp", .str (toIso m.timestamp)),
        ("priority", .num m.priority.value)]

/-- Field access obj[k] on a decoded JSON object; KeyError or a non-object is
modelled as none. -/
def jsonField (j : Json) (k : String) : Option Json :=
  match j with
  | .obj fields =>
    match fields.find? (fun kv => kv.1 = k) with
    | some kv => some kv.2
    | none => none
  | _ => none

/-- A JSON value read where a string is expected. -/
def jsonAsStr : Json → Option String
  | .str s => some s
  | _ => none

/-- A JSON value read where an integer is expected. -/
def jsonAsNum : Json → Option Int
  | .num n => some n
  | _ => none

/-- deserialize_agent_message: rebuild an AgentMessage from the wire dict,
parsing the timestamp with fromisoformat and the priority with Priority(v);
any missing field, wrong field shape, unparsable timestamp or unknown
priority value is a raised error, modelled as none. -/
def deserialize_agent_message (j : Json) : Option AgentMessage := do
  let id ← (jsonField j "id").bind jsonAsStr
  let sender ← (jsonField j "sender").bind jsonAsStr
  let recipient ← (jsonField j "recipient").bind jsonAsStr
  let message_type ← (jsonField j "message_type").bind jsonAsStr
  let content ← jsonField j "content"
  let tsStr ← (jsonField j "timestamp").bind jsonAsStr
  let timestamp ← fromIso tsStr
  let prVal ← (jsonField j "priority").bind jsonAsNum
  let priority ← Priority.ofValue prVal
  some ⟨id, sender, recipient, message_type, content, timestamp, priority⟩

/-- AgentStatus from agent_base.py. -/
inductive AgentStatus where
  | offline
  | idle
  | working
  | err
  | collaboration
deriving DecidableEq

/-- AgentTask from agent_base.py. -/
structure AgentTask where
  id : String
  case_id : String
  task_type : String
  priority : Priority
  data : Json
  assigned_at : Datetime
  deadline : Option Datetime := none
  progress : ℚ := 0
  status : String := "pending"
  result : Option Json := none
  error : Option String := none

/-- The dict returned by a specialization's get_capabilities, restricted to
the key the core reads: capabilities.get("supported_tasks", []). -/
structure Capabilities where
  supported_tasks : List String

/-- The mutable per-agent state the claims touch: identity, status, the
current-task table, session memory and the council directory (the directory
is modelled by the set of registered agent identifiers, since the core only
tests membership and enqueues into the target's mailbox). -/
structure AgentState where
  name : String
  codename : String
  specialization : String
  status : AgentStatus
  current_tasks : List (String × AgentTask)
  session_memory : List (String × Json)
  council_agents : List String

/-- Python dict lookup d.get(k) over an association list. -/
def alistLookup (l : List (String × α)) (k : String) : Option α :=
  match l with
  | [] => none
  | kv :: rest => if kv.1 = k then some kv.2 else alistLookup rest k

/-- Python dict assignment d[k] = v over an association list. -/
def alistInsert (l : List (String × α)) (k : String) (v : α) :
    List (String × α) :=
  (k, v) :: l.filter (fun kv => kv.1 ≠ k)

/-- Python dict deletion del d[k] over an association list. -/
def alistErase (l : List (String × α)) (k : String) : List (String × α) :=
  l.filter (fun kv => kv.1 ≠ k)

/-- _can_handle_task: membership of the task type in the supported-task list
obtained from get_capabilities. -/
def canHandleTask (caps : Capabilities) (task : AgentTask) : Bool :=
  caps.supported_tasks.contains task.task_type

/-- assign_task.  The surrounding try/except turns any exception raised while
handling the assignment (in particular one raised by get_capabilities inside
_can_handle_task, passed here as the capsResult input) into a False return;
an unsupported task type also returns False; otherwise the task is inserted
into current_tasks, status is set to WORKING, processing is scheduled
(fire-and-forget, modelled separately by processTask) and True is returned. -/
def assignTask (capsResult : Except String Capabilities) (st : AgentState)
    (task : AgentTask) : Bool × AgentState :=
  match capsResult with
  | .error _ => (false, st)
  | .ok caps =>
    if canHandleTask caps task then
      (true,
       { st with current_tasks := alistInsert st.current_tasks task.id task,
                 status := .working })
    else (false, st)

/-- The completion-event record built by _notify_task_completion. -/
structure CompletionEvent where
  agent : String
  task_id : String
  status : String
  result : Option Json
  timestamp : String

/-- The record _notify_task_completion publishes and broadcasts. -/
def mkCompletionEvent (st : AgentState) (task : AgentTask) (now : String) :
    CompletionEvent :=
  ⟨st.codename, task.id, task.status, task.result, now⟩

/-- Everything _process_task leaves behind: the final task record, the final
agent state, the events published to the Redis task_completions channel and
the events pushed to the connected WebSocket listeners. -/
structure ProcessOutcome where
  task : AgentTask
  state : AgentState
  published : List CompletionEvent
  broadcast : List CompletionEvent

/-- _process_task together with _notify_task_completion.  analyzeResult is
the outcome of the analyze call, notifyResult the outcome of the notification
delivery (Redis publish plus WebSocket broadcast).  On a normal analyze
return the task becomes completed with progress 100 and the completion event
is published and broadcast; an exception from analyze, or one from the
notification delivery, is caught and marks the task failed with the error
string stored.  The finally block removes the task from current_tasks and
reverts status to IDLE when the table is empty. -/
def processTask (analyzeResult : Except String Json)
    (notifyResult : Except String Unit) (now : String) (st : AgentState)
    (task : AgentTask) : ProcessOutcome :=
  let task1 := { task with status := "in_progress" }
  let step : AgentTask × List CompletionEvent :=
    match analyzeResult with
    | .error e => ({ task1 with status := "failed", error := some e }, [])
    | .ok result =>
      let done := { task1 with result := some result, status := "completed",
                               progress := 100 }
      match notifyResult with
      | .ok _ => (done, [mkCompletionEvent st done now])
      | .error e => ({ done with status := "failed", error := some e }, [])
  let tasks2 := alistErase st.current_tasks task.id
  let status2 := if tasks2.isEmpty then AgentStatus.idle else st.status
  ⟨step.1, { st with current_tasks := tasks2, status := status2 },
   step.2, step.2⟩

/-- collaborate_with: raises ValueError when the target agent identifier is
not registered in the council directory; otherwise builds a
collaboration_request message and puts it on the target's mailbox queue (the
returned list of (recipient, message) pairs records the queue puts). -/
def collaborateWith (st : AgentState) (agent_name : String) (request : Json)
    (msgId : String) (now : Datetime) :
    Except String (List (String × AgentMessage)) :=
  if st.council_agents.contains agent_name then
    .ok [(agent_name,
          ⟨msgId, st.codename, agent_name, "collaboration_request", request,
           now, Priority.medium⟩)]
  else
    .error ("Agent " ++ agent_name ++ " not available for collaboration")

/-- _handle_collaboration_request: set status to COLLABORATION, run analyze
on the message content; on success wrap the result in a
collaboration_response and put it on the sender's mailbox if the sender is
registered, silently dropping it otherwise; an analyze exception is caught
and logged with no response sent.  The finally block reverts status to IDLE
when no tasks remain. -/
def handleCollaborationRequest (analyzeResult : Except String Json)
    (st : AgentState) (message : AgentMessage) (respId : String)
    (now : Datetime) : AgentState × List (String × AgentMessage) :=
  let st1 := { st with status := AgentStatus.collaboration }
  let sends : List (String × AgentMessage) :=
    match analyzeResult with
    | .ok result =>
      if st.council_agents.contains message.sender then
        [(message.sender,
          ⟨respId, st.codename, message.sender, "collaboration_response",
           Json.obj [("result", result)], now, Priority.medium⟩)]
      else []
    | .error _ => []
  let status2 := if st1.current_tasks.isEmpty then AgentStatus.idle
                 else st1.status
  ({ st1 with status := status2 }, sends)

/-- AIProvider from ai_service_manager.py. -/
inductive AIProvider where
  | claude
  | chatgpt
  | gemini
  | local
deriving DecidableEq

/-- QueryType from ai_service_manager.py. -/
inductive QueryType where
  | analysis
  | generation
  | reasoning
  | creative
  | technical
  | investigation
deriving DecidableEq

/-- AIResponse from ai_service_manager.py, with times, costs and confidences
as rationals standing for the Python floats. -/
structure AIResponse where
  provider : AIProvider
  content : String
  confidence : ℚ
  processing_time : ℚ
  tokens_used : Nat
  cost : ℚ
  timestamp : Datetime

/-- QueryContext, restricted to the fields route_query reads. -/
structure QueryContext where
  agent_name : String
  case_id : String
  priority : Int
  query_type : QueryType
  specialization : String
  preferred_provider : Option AIProvider := none

/-- The static routing table built by the routing-rules constructor of
AIServiceManager: for each query type, the fixed preference order over
providers.  route_query reads it with .get(query_type, []); the dict
enumerates every QueryType, so the default never fires. -/
def routingRules : QueryType → List AIProvider
  | .analysis => [.claude, .chatgpt, .gemini]
  | .reasoning => [.claude, .chatgpt, .local]
  | .creative => [.chatgpt, .gemini, .claude]
  | .technical => [.claude, .chatgpt, .local]
  | .investigation => [.claude, .chatgpt, .gemini]
  | .generation => [.chatgpt, .gemini, .local]

/-- The per-provider entry of performance_metrics. -/
structure ProviderMetrics where
  total_queries : Nat
  total_time : ℚ
  total_cost : ℚ
  average_confidence : ℚ
deriving DecidableEq

/-- Dict lookup keyed by provider. -/
def pmLookup (l : List (AIProvider × ProviderMetrics)) (p : AIProvider) :
    Option ProviderMetrics :=
  match l with
  | [] => none
  | kv :: rest => if kv.1 = p then some kv.2 else pmLookup rest p

/-- Dict assignment keyed by provider. -/
def pmInsert (l : List (AIProvider × ProviderMetrics)) (p : AIProvider)
    (v : ProviderMetrics) : List (AIProvider × ProviderMetrics) :=
  (p, v) :: l.filter (fun kv => kv.1 ≠ p)

/-- The metrics entry seen by _update_performance_metrics: the stored entry,
or the zero entry it first inserts when the provider is new. -/
def pmEntry (l : List (AIProvider × ProviderMetrics)) (p : AIProvider) :
    ProviderMetrics :=
  (pmLookup l p).getD ⟨0, 0, 0, 0⟩

/-- _update_performance_metrics: create the zero entry if absent, bump the
query count, accumulate time and cost, and update the rolling average
confidence with (avg * (n - 1) + confidence) / n at the new count n. -/
def updatePerformanceMetrics (l : List (AIProvider × ProviderMetrics))
    (p : AIProvider) (response : AIResponse) :
    List (AIProvider × ProviderMetrics) :=
  let metrics := pmEntry l p
  let tq : Nat := metrics.total_queries + 1
  pmInsert l p
    { total_queries := tq,
      total_time := metrics.total_time + response.processing_time,
      total_cost := metrics.total_cost + response.cost,
      average_confidence :=
        (metrics.average_confidence * ((tq - 1 : Nat) : ℚ) +
          response.confidence) / (tq : ℚ) }

/-- The AIServiceManager state route_query reads and writes: the set of
registered providers (the keys of the providers dict; the adapter objects
themselves are modelled by the query environment), the cached health dict
read with .get(p, False), and the performance-metrics dict. -/
structure ManagerState where
  providers : List AIProvider
  health_status : List (AIProvider × Bool)
  performance_metrics : List (AIProvider × ProviderMetrics)

/-- health_status.get(p, False). -/
def hsGet (l : List (AIProvider × Bool)) (p : AIProvider) : Bool :=
  match l with
  | [] => false
  | kv :: rest => if kv.1 = p then kv.2 else hsGet rest p

/-- The filtered candidate list of route_query: the routing-table order for
the query type, kept to providers that are registered and cached healthy. -/
def availableProviders (mgr : ManagerState) (qt : QueryType) :
    List AIProvider :=
  (routingRules qt).filter
    (fun p => mgr.providers.contains p && hsGet mgr.health_status p)

/-- What one route_query call produces: the returned response or raised
error, the providers whose query method was attempted, in order, and the
performance-metrics dict after the call. -/
structure RouteResult where
  result : Except String AIResponse
  attempts : List AIProvider
  metrics : List (AIProvider × ProviderMetrics)

/-- The failover loop of route_query: attempt the candidates in order; on an
exception remember it as last_error and continue; on the first success update
the performance metrics and return the response; when every candidate failed
raise the aggregate error naming the last underlying failure. -/
def tryProviders (env : AIProvider → Except String AIResponse)
    (metrics : List (AIProvider × ProviderMetrics))
    (attempts : List AIProvider) (lastError : Option String) :
    List AIProvider → RouteResult
  | [] =>
    ⟨.error ("All AI providers failed. Last error: " ++
        (match lastError with | some e => e | none => "None")),
     attempts, metrics⟩
  | p :: rest =>
    match env p with
    | .ok r => ⟨.ok r, attempts ++ [p], updatePerformanceMetrics metrics p r⟩
    | .error e => tryProviders env metrics (attempts ++ [p]) (some e) rest

/-- Steps 2-6 of route_query: look up the routing-table order, filter to
registered healthy providers, raise the no-healthy-providers error when the
filtered list is empty, and otherwise run the failover loop.  attempts0
carries an attempt already made on the preferred provider. -/
def routeViaRules (env : AIProvider → Except String AIResponse)
    (mgr : ManagerState) (ctx : QueryContext) (attempts0 : List AIProvider) :
    RouteResult :=
  let available := availableProviders mgr ctx.query_type
  if available.isEmpty then
    ⟨.error "No healthy AI providers available", attempts0,
     mgr.performance_metrics⟩
  else
    tryProviders env mgr.performance_metrics attempts0 none available

/-- route_query.  env models the external provider calls: env p is what
providers[p].query(prompt, context, system_prompt) does on this call.  A
specified preferred provider that is registered and cached healthy is
attempted first and its response returned directly (without touching
performance_metrics); on its failure the error propagates when fallback is
disabled and otherwise the routing-table path takes over. -/
def route_query (env : AIProvider → Except String AIResponse)
    (mgr : ManagerState) (ctx : QueryContext) (fallback : Bool) :
    RouteResult :=
  match ctx.preferred_provider with
  | some p =>
    if mgr.providers.contains p && hsGet mgr.health_status p then
      match env p with
      | .ok r => ⟨.ok r, [p], mgr.performance_metrics⟩
      | .error e =>
        if fallback then routeViaRules env mgr ctx [p]
        else ⟨.error e, [p], mgr.performance_metrics⟩
    else routeViaRules env mgr ctx []
  | none => routeViaRules env mgr ctx []

/-! Concrete sample data used to instantiate the theorems. -/

/-- A sample timestamp. -/
def dtZ : Datetime := ⟨2024, 1, 1, 0, 0, 0, 0⟩

/-- An AIResponse carrying a given confidence (the fields the running-average
computation ignores are fixed). -/
def confResp (c : ℚ) : AIResponse :=
  ⟨AIProvider.claude, "", c, 0, 0, 0, dtZ⟩

/-- A sample idle agent with an empty task table and an empty council
directory. -/
def sampleAgent : AgentState :=
  ⟨"Oracle Prime", "ORACLE", "identity_intelligence", .idle, [], [], []⟩

/-- A sample task. -/
def sampleTask : AgentTask :=
  ⟨"task-1", "case-1", "face_match", .medium, .null, dtZ, none, 0, "pending",
   none, none⟩

/-- A sample successful provider response. -/
def sampleResp : AIResponse :=
  ⟨AIProvider.claude, "analysis text", 9/10, 2, 120, 3/100, dtZ⟩

/-- sampleAgent right after accepting sampleTask. -/
def sampleAgentWorking : AgentState :=
  ⟨"Oracle Prime", "ORACLE", "identity_intelligence", .working,
   [("task-1", sampleTask)], [], []⟩

/-- A sample collaboration-request message from an unregistered sender. -/
def sampleRequest : AgentMessage :=
  ⟨"msg-1", "ATLAS", "ORACLE", "collaboration_request", .obj [], dtZ,
   .medium⟩

/-- A manager for the failover scenario: for the creative category the
routing-table order is [chatgpt, gemini, claude], chatgpt is cached
unhealthy, gemini and claude are registered and cached healthy. -/
def mgrFailover : ManagerState :=
  ⟨[.gemini, .claude, .chatgpt],
   [(.chatgpt, false), (.gemini, true), (.claude, true)], []⟩

/-- A creative-category query context with no preferred provider. -/
def ctxFailover : QueryContext :=
  ⟨"ORACLE", "case-1", 2, .creative, "identity_intelligence", none⟩

/-- Provider behavior for the failover scenario: gemini raises, claude
answers. -/
def envFailover : AIProvider → Except String AIResponse :=
  fun p =>
    match p with
    | .gemini => .error "gemini timeout"
    | .claude => .ok sampleResp
    | _ => .error "unreachable"

/-- A manager with no providers registered. -/
def mgrEmpty : ManagerState := ⟨[], [], []⟩

/-- An analysis-category query context with no preferred provider. -/
def ctxPlain : QueryContext :=
  ⟨"ORACLE", "case-1", 2, .analysis, "identity_intelligence", none⟩

/-- A manager with only claude registered and healthy and no metrics yet. -/
def mgrPreferred : ManagerState := ⟨[.claude], [(.claude, true)], []⟩

/-- An analysis-category query context preferring claude. -/
def ctxPreferred : QueryContext :=
  ⟨"ORACLE", "case-1", 2, .analysis, "identity_intelligence", some .claude⟩

/-- Provider behavior where every provider answers with sampleResp. -/
def envOk : AIProvider → Except String AIResponse := fun _ => .ok sampleResp

/-! Association-list (Python dict) helper lemmas. -/

/-- Looking a key up after dict deletion of that key finds nothing. -/
theorem alistLookup_alistErase (l : List (String × α)) (k : String) :
    alistLookup (alistErase l k) k = none := by
  induction l with
  | nil => rfl
  | cons kv rest ih =>
    by_cases h : kv.1 = k
    · simpa [alistErase, List.filter_cons, h] using ih
    · simpa [alistErase, alistLookup, List.filter_cons, h] using ih

/-! Claim C3 and claim C10: assign_task. -/

/-- Claim C3: a task whose type is not in the agent's declared supported-task
set is refused by assign_task with the not-accepted signal False, no error,
and the agent state — in particular its status and its current-task table —
is returned exactly as it was. -/
theorem assign_task_reject_unsupported (caps : Capabilities)
    (st : AgentState) (task : AgentTask)
    (h : task.task_type ∉ caps.supported_tasks) :
    assignTask (Except.ok caps) st task = (false, st) ∧
    (assignTask (Except.ok caps) st task).2.status = st.status ∧
    (assignTask (Except.ok caps) st task).2.current_tasks =
      st.current_tasks := by
  have hc : canHandleTask caps task = false := by
    simp [canHandleTask, h]
  simp [assignTask, hc]

/-- Witness for claim C3 at a concrete unsupported task. -/
theorem assign_task_reject_unsupported_witness :
    assignTask (Except.ok ⟨["geo_cluster"]⟩) sampleAgent sampleTask =
      (false, sampleAgent) :=
  (assign_task_reject_unsupported ⟨["geo_cluster"]⟩ sampleAgent sampleTask
    (by decide)).1

/-- Claim C10: assign_task is total and never propagates an exception: an
exception raised inside the call (modelled by an error capsResult from
get_capabilities) is caught and produces exactly the same refusal (False,
unchanged state) as an unsupported task type, so every call returns either
acceptance or that refusal. -/
theorem assign_task_total_refusal (st : AgentState) (task : AgentTask) :
    (∀ e, assignTask (Except.error e) st task = (false, st)) ∧
    (∀ capsResult, (assignTask capsResult st task).1 = true ∨
        assignTask capsResult st task = (false, st)) := by
  refine ⟨fun e => rfl, fun capsResult => ?_⟩
  match capsResult with
  | .error e => exact Or.inr rfl
  | .ok caps =>
    by_cases h : canHandleTask caps task
    · exact Or.inl (by simp [assignTask, h])
    · exact Or.inr (by simp [assignTask, h])

/-! Claim C7: terminal states of task processing. -/

/-- Claim C7: after a task accepted by assign_task is run by its processing
unit, the task is in exactly one terminal state (completed xor failed), it is
absent from the current-task table, and when the table is then empty the
agent status is idle. -/
theorem process_task_terminal_state (capsResult : Except String Capabilities)
    (st st2 : AgentState) (task : AgentTask)
    (analyzeResult : Except String Json) (notifyResult : Except String Unit)
    (now : String)
    (_hacc : assignTask capsResult st task = (true, st2)) :
    (((processTask analyzeResult notifyResult now st2 task).task.status =
        "completed" ∧
      (processTask analyzeResult notifyResult now st2 task).task.status ≠
        "failed") ∨
    ((processTask analyzeResult notifyResult now st2 task).task.status =
        "failed" ∧
      (processTask analyzeResult notifyResult now st2 task).task.status ≠
        "completed")) ∧
    alistLookup
        (processTask analyzeResult notifyResult now st2 task).state.current_tasks
        task.id = none ∧
    ((processTask analyzeResult notifyResult now st2 task).state.current_tasks.isEmpty =
        true →
      (processTask analyzeResult notifyResult now st2 task).state.status =
        AgentStatus.idle) := by
  refine ⟨?_, ?_, ?_⟩
  · cases analyzeResult with
    | error e => right; simp [processTask]
    | ok r =>
      cases notifyResult with
      | ok u => left; simp [processTask]
      | error e => right; simp [processTask]
  · simpa [processTask] using alistLookup_alistErase st2.current_tasks task.id
  · intro hempty
    simp only [processTask] at hempty ⊢
    simp [hempty]

/-- Witness for claim C7: a concrete accepted task is processed to a
terminal state, leaves the table and the agent returns to idle. -/
theorem process_task_terminal_state_witness :
    assignTask (Except.ok ⟨["face_match"]⟩) sampleAgent sampleTask =
      (true, sampleAgentWorking) ∧
    ((((processTask (Except.ok (Json.str "done")) (Except.ok ()) "now"
          sampleAgentWorking sampleTask).task.status = "completed" ∧
       (processTask (Except.ok (Json.str "done")) (Except.ok ()) "now"
          sampleAgentWorking sampleTask).task.status ≠ "failed") ∨
      ((processTask (Except.ok (Json.str "done")) (Except.ok ()) "now"
          sampleAgentWorking sampleTask).task.status = "failed" ∧
       (processTask (Except.ok (Json.str "done")) (Except.ok ()) "now"
          sampleAgentWorking sampleTask).task.status ≠ "completed")) ∧
     alistLookup
        (processTask (Except.ok (Json.str "done")) (Except.ok ()) "now"
          sampleAgentWorking sampleTask).state.current_tasks
        sampleTask.id = none ∧
     ((processTask (Except.ok (Json.str "done")) (Except.ok ()) "now"
          sampleAgentWorking sampleTask).state.current_tasks.isEmpty = true →
       (processTask (Except.ok (Json.str "done")) (Except.ok ()) "now"
          sampleAgentWorking sampleTask).state.status =
         AgentStatus.idle)) :=
  ⟨rfl,
   process_task_terminal_state (Except.ok ⟨["face_match"]⟩) sampleAgent
     sampleAgentWorking sampleTask (Except.ok (Json.str "done"))
     (Except.ok ()) "now" rfl⟩

/-! Claim C2: completion events. -/

/-- Claim C2 counterexample: a task whose analyze call raises ends with
status failed, yet no completion event is published to the notification sink
and nothing is broadcast to the listeners — the code only notifies on
success. -/
theorem process_task_no_event_on_failure :
    (processTask (Except.error "analysis failed") (Except.ok ())
        "2024-01-01T00:00:00" sampleAgent sampleTask).task.status =
      "failed" ∧
    (processTask (Except.error "analysis failed") (Except.ok ())
        "2024-01-01T00:00:00" sampleAgent sampleTask).published = [] ∧
    (processTask (Except.error "analysis failed") (Except.ok ())
        "2024-01-01T00:00:00" sampleAgent sampleTask).broadcast = [] :=
  ⟨rfl, rfl, rfl⟩

/-- Claim C2, amended: a completion event containing agent codename, task id,
status completed, the analysis result and the timestamp is published to the
shared notification sink and broadcast to the subscribed listeners exactly
when analyze returns normally (and the delivery itself does not raise); when
analyze raises, the task is marked failed and no completion event is
published or broadcast. -/
theorem process_task_completion_event_on_success (st : AgentState)
    (task : AgentTask) (r : Json) (e : String) (nr : Except String Unit)
    (now : String) :
    ((processTask (Except.ok r) (Except.ok ()) now st task).published =
        [⟨st.codename, task.id, "completed", some r, now⟩] ∧
     (processTask (Except.ok r) (Except.ok ()) now st task).broadcast =
        [⟨st.codename, task.id, "completed", some r, now⟩]) ∧
    ((processTask (Except.error e) nr now st task).published = [] ∧
     (processTask (Except.error e) nr now st task).broadcast = []) := by
  refine ⟨⟨?_, ?_⟩, ?_, ?_⟩ <;> simp [processTask, mkCompletionEvent]

/-! Claim C6: undeliverable messages. -/

/-- Claim C6 counterexample: collaborate_with toward a recipient absent from
the council directory does not complete silently — it raises the ValueError
naming the missing agent. -/
theorem collaborate_with_unknown_recipient_raises :
    collaborateWith sampleAgent "ATLAS" (Json.obj []) "msg-1" dtZ =
      Except.error "Agent ATLAS not available for collaboration" := rfl

/-- Claim C6, amended: inside the collaboration-request handler a
collaboration_response toward a sender absent from the council directory is
silently dropped, with no mailbox receiving anything and no error raised;
but collaborate_with toward an absent recipient raises a ValueError naming
the missing agent instead of dropping the message. -/
theorem undeliverable_reply_dropped (st : AgentState) (msg : AgentMessage)
    (analyzeResult : Except String Json) (respId : String) (nowD : Datetime)
    (request : Json) (msgId : String) (name : String)
    (hsender : msg.sender ∉ st.council_agents)
    (hname : name ∉ st.council_agents) :
    (handleCollaborationRequest analyzeResult st msg respId nowD).2 = [] ∧
    collaborateWith st name request msgId nowD =
      Except.error ("Agent " ++ name ++ " not available for collaboration")
    := by
  constructor
  · cases analyzeResult <;> simp [handleCollaborationRequest, hsender]
  · simp [collaborateWith, hname]

/-- Witness for claim C6 as amended, at a concrete agent with an empty
council directory. -/
theorem undeliverable_reply_dropped_witness :
    ("ATLAS" : String) ∉ sampleAgent.council_agents ∧
    ((handleCollaborationRequest (Except.ok (Json.str "r")) sampleAgent
        sampleRequest "resp-1" dtZ).2 = [] ∧
     collaborateWith sampleAgent "ATLAS" (Json.obj []) "msg-1" dtZ =
       Except.error ("Agent " ++ "ATLAS" ++
         " not available for collaboration")) :=
  ⟨by decide,
   undeliverable_reply_dropped sampleAgent sampleRequest
     (Except.ok (Json.str "r")) "resp-1" dtZ (Json.obj []) "msg-1" "ATLAS"
     (by decide) (by decide)⟩

/-! Performance-metrics dict lemmas. -/

/-- Looking the assigned key up after a dict assignment yields the new
value. -/
theorem pmLookup_pmInsert_self (l : List (AIProvider × ProviderMetrics))
    (p : AIProvider) (v : ProviderMetrics) :
    pmLookup (pmInsert l p v) p = some v := by
  simp [pmInsert, pmLookup]

/-- Dropping the entries of another key does not change a lookup. -/
theorem pmLookup_filter_ne (l : List (AIProvider × ProviderMetrics))
    (p q : AIProvider) (h : q ≠ p) :
    pmLookup (l.filter fun kv => kv.1 ≠ p) q = pmLookup l q := by
  have hpq : ¬p = q := fun e => h e.symm
  induction l with
  | nil => rfl
  | cons kv rest ih =>
    by_cases hk : kv.1 = p
    · simpa [List.filter_cons, pmLookup, hk, hpq, h] using ih
    · by_cases hq : kv.1 = q
      · simp [List.filter_cons, pmLookup, hk, hq, h]
      · simpa [List.filter_cons, pmLookup, hk, hq, h] using ih

/-- A dict assignment under one key does not change another key's lookup. -/
theorem pmLookup_pmInsert_ne (l : List (AIProvider × ProviderMetrics))
    (p q : AIProvider) (v : ProviderMetrics) (h : q ≠ p) :
    pmLookup (pmInsert l p v) q = pmLookup l q := by
  have hpq : ¬p = q := fun e => h e.symm
  simp only [pmInsert, pmLookup, hpq, if_false]
  exact pmLookup_filter_ne l p q h

/-- The metrics entry of the updated provider after
_update_performance_metrics: count bumped, time and cost accumulated,
rolling average folded in. -/
theorem pmEntry_update_self (l : List (AIProvider × ProviderMetrics))
    (p : AIProvider) (r : AIResponse) :
    pmEntry (updatePerformanceMetrics l p r) p =
      ⟨(pmEntry l p).total_queries + 1,
       (pmEntry l p).total_time + r.processing_time,
       (pmEntry l p).total_cost + r.cost,
       ((pmEntry l p).average_confidence *
           ((pmEntry l p).total_queries : ℚ) + r.confidence) /
         (((pmEntry l p).total_queries : ℚ) + 1)⟩ := by
  simp only [updatePerformanceMetrics, pmEntry, pmLookup_pmInsert_self,
    Option.getD_some, Nat.add_sub_cancel]
  push_cast
  ring_nf

/-- _update_performance_metrics leaves every other provider's entry
untouched. -/
theorem pmEntry_update_ne (l : List (AIProvider × ProviderMetrics))
    (p q : AIProvider) (r : AIResponse) (h : q ≠ p) :
    pmEntry (updatePerformanceMetrics l p r) q = pmEntry l q := by
  simp [updatePerformanceMetrics, pmEntry, pmLookup_pmInsert_ne _ _ _ _ h]

/-- _update_performance_metrics never decreases any provider's query
count. -/
theorem pmCount_mono_update (l : List (AIProvider × ProviderMetrics))
    (p q : AIProvider) (r : AIResponse) :
    (pmEntry l q).total_queries ≤
      (pmEntry (updatePerformanceMetrics l p r) q).total_queries := by
  by_cases h : q = p
  · subst h
    rw [pmEntry_update_self]
    exact Nat.le_succ _
  · rw [pmEntry_update_ne _ _ _ _ h]

/-! Failover-loop lemmas. -/

/-- Across the failover loop, no provider's query count decreases. -/
theorem tryProviders_metrics_mono (env : AIProvider → Except String AIResponse)
    (m : List (AIProvider × ProviderMetrics)) (att : List AIProvider)
    (le : Option String) (l : List AIProvider) (q : AIProvider) :
    (pmEntry m q).total_queries ≤
      (pmEntry (tryProviders env m att le l).metrics q).total_queries := by
  induction l generalizing att le with
  | nil => simp [tryProviders]
  | cons p rest ih =>
    cases henv : env p with
    | ok r =>
      simp only [tryProviders, henv]
      exact pmCount_mono_update m p q r
    | error e =>
      simp only [tryProviders, henv]
      exact ih _ _

/-- A successful failover loop served the query from some candidate of its
list whose query succeeded, and appended exactly that provider's metrics. -/
theorem tryProviders_ok (env : AIProvider → Except String AIResponse)
    (m : List (AIProvider × ProviderMetrics)) (att : List AIProvider)
    (le : Option String) (l : List AIProvider) (r : AIResponse)
    (h : (tryProviders env m att le l).result = Except.ok r) :
    ∃ p, p ∈ l ∧ env p = Except.ok r ∧
      (tryProviders env m att le l).metrics =
        updatePerformanceMetrics m p r := by
  induction l generalizing att le with
  | nil => simp [tryProviders] at h
  | cons p rest ih =>
    cases henv : env p with
    | ok r0 =>
      simp only [tryProviders, henv, Except.ok.injEq] at h
      subst h
      exact ⟨p, List.mem_cons_self _ _, henv, by simp [tryProviders, henv]⟩
    | error e =>
      simp only [tryProviders, henv] at h
      obtain ⟨p1, hmem, henv1, hm⟩ := ih _ _ h
      exact ⟨p1, List.mem_cons_of_mem _ hmem, henv1, by
        simp only [tryProviders, henv]; exact hm⟩

/-! Claim C1: health-filtered ordered failover. -/

/-- Claim C1: with category routing order [c, a, b], c cached unhealthy, a
and b registered and cached healthy, and no preferred provider, route_query
filters the candidates to [a, b] in table order; when a's query raises and
b's succeeds, a is attempted first, then b, and b's response is returned
(with b's metrics appended). -/
theorem route_query_failover_order
    (env : AIProvider → Except String AIResponse) (mgr : ManagerState)
    (ctx : QueryContext) (fallback : Bool) (a b c : AIProvider) (ea : String)
    (r : AIResponse)
    (hpref : ctx.preferred_provider = none)
    (horder : routingRules ctx.query_type = [c, a, b])
    (hc : hsGet mgr.health_status c = false)
    (ha : a ∈ mgr.providers) (hah : hsGet mgr.health_status a = true)
    (hb : b ∈ mgr.providers) (hbh : hsGet mgr.health_status b = true)
    (henva : env a = Except.error ea) (henvb : env b = Except.ok r) :
    availableProviders mgr ctx.query_type = [a, b] ∧
    route_query env mgr ctx fallback =
      ⟨Except.ok r, [a, b],
       updatePerformanceMetrics mgr.performance_metrics b r⟩ := by
  have hav : availableProviders mgr ctx.query_type = [a, b] := by
    simp [availableProviders, horder, List.filter_cons, hc, ha, hah, hb, hbh]
  refine ⟨hav, ?_⟩
  simp only [route_query, hpref, routeViaRules, hav, List.isEmpty_cons,
    Bool.false_eq_true, if_false]
  simp [tryProviders, henva, henvb]

/-- Witness for claim C1, on the creative category with chatgpt unhealthy,
gemini raising and claude answering. -/
theorem route_query_failover_order_witness :
    routingRules ctxFailover.query_type =
      [AIProvider.chatgpt, AIProvider.gemini, AIProvider.claude] ∧
    hsGet mgrFailover.health_status AIProvider.chatgpt = false ∧
    (availableProviders mgrFailover ctxFailover.query_type =
      [AIProvider.gemini, AIProvider.claude] ∧
    route_query envFailover mgrFailover ctxFailover true =
      ⟨Except.ok sampleResp, [AIProvider.gemini, AIProvider.claude],
       updatePerformanceMetrics mgrFailover.performance_metrics
         AIProvider.claude sampleResp⟩) :=
  ⟨rfl, rfl,
   route_query_failover_order envFailover mgrFailover ctxFailover true
     AIProvider.gemini AIProvider.claude AIProvider.chatgpt "gemini timeout"
     sampleResp rfl rfl rfl (by decide) rfl (by decide) rfl rfl rfl⟩

/-! Claim C4: no healthy provider. -/

/-- Claim C4: when no candidate of the category's routing order is both
registered and cached healthy, and no usable preferred provider exists,
route_query raises the no-healthy-providers error, attempts no provider
query, and leaves the metrics untouched. -/
theorem route_query_no_healthy_provider
    (env : AIProvider → Except String AIResponse) (mgr : ManagerState)
    (ctx : QueryContext) (fallback : Bool)
    (hpref : ∀ p, ctx.preferred_provider = some p →
        p ∉ mgr.providers ∨ hsGet mgr.health_status p = false)
    (hnone : ∀ p ∈ routingRules ctx.query_type,
        p ∉ mgr.providers ∨ hsGet mgr.health_status p = false) :
    route_query env mgr ctx fallback =
      ⟨Except.error "No healthy AI providers available", [],
       mgr.performance_metrics⟩ := by
  have hav : availableProviders mgr ctx.query_type = [] := by
    simp only [availableProviders, List.filter_eq_nil_iff]
    intro p hp
    rcases hnone p hp with h | h <;> simp [h]
  cases hp : ctx.preferred_provider with
  | none => simp [route_query, hp, routeViaRules, hav]
  | some p =>
    rcases hpref p hp with h | h <;>
      simp [route_query, hp, routeViaRules, hav, h]

/-- Witness for claim C4: a manager with no registered providers raises the
no-healthy-providers error with zero attempts. -/
theorem route_query_no_healthy_provider_witness :
    route_query envOk mgrEmpty ctxPlain true =
      ⟨Except.error "No healthy AI providers available", [],
       mgrEmpty.performance_metrics⟩ :=
  route_query_no_healthy_provider envOk mgrEmpty ctxPlain true
    (fun p hp => by simp [ctxPlain] at hp)
    (fun p _ => Or.inl (by simp [mgrEmpty]))

/-! Claim C5: metrics appending. -/

/-- Claim C5 counterexample: a query served successfully by the caller's
preferred provider returns without appending the serving provider's
performance metrics — the metrics dict stays empty and claude's query count
stays zero. -/
theorem route_query_preferred_skips_metrics :
    (route_query envOk mgrPreferred ctxPreferred true).result =
      Except.ok sampleResp ∧
    (route_query envOk mgrPreferred ctxPreferred true).metrics = [] ∧
    (pmEntry (route_query envOk mgrPreferred ctxPreferred true).metrics
        AIProvider.claude).total_queries = 0 :=
  ⟨rfl, rfl, rfl⟩

/-- Claim C5, amended: when the preferred provider serves the query its
response is returned with the performance metrics left untouched; when no
usable preferred provider exists, a successful route_query appends exactly
the serving candidate's metrics entry; and across every route_query path no
provider's query count ever decreases. -/
theorem route_query_metrics_discipline
    (env : AIProvider → Except String AIResponse) (mgr : ManagerState)
    (ctx : QueryContext) (fallback : Bool) :
    (∀ p r, ctx.preferred_provider = some p → p ∈ mgr.providers →
        hsGet mgr.health_status p = true → env p = Except.ok r →
        route_query env mgr ctx fallback =
          ⟨Except.ok r, [p], mgr.performance_metrics⟩) ∧
    (∀ r, (∀ p, ctx.preferred_provider = some p →
            p ∉ mgr.providers ∨ hsGet mgr.health_status p = false) →
        (route_query env mgr ctx fallback).result = Except.ok r →
        ∃ p, p ∈ availableProviders mgr ctx.query_type ∧
          env p = Except.ok r ∧
          (route_query env mgr ctx fallback).metrics =
            updatePerformanceMetrics mgr.performance_metrics p r) ∧
    (∀ q, (pmEntry mgr.performance_metrics q).total_queries ≤
        (pmEntry (route_query env mgr ctx fallback).metrics q).total_queries)
    := by
  refine ⟨?_, ?_, ?_⟩
  · intro p r hp hreg hh henv
    simp [route_query, hp, hreg, hh, henv]
  · intro r hnp
    have hred : route_query env mgr ctx fallback =
        routeViaRules env mgr ctx [] := by
      cases hp : ctx.preferred_provider with
      | none => simp [route_query, hp]
      | some p =>
        rcases hnp p hp with h | h <;> simp [route_query, hp, h]
    rw [hred]
    intro hok
    simp only [routeViaRules] at hok ⊢
    by_cases hemp : (availableProviders mgr ctx.query_type).isEmpty
    · simp [hemp] at hok
    · simp only [hemp, if_false] at hok ⊢
      exact tryProviders_ok env mgr.performance_metrics [] none _ r hok
  · intro q
    cases hp : ctx.preferred_provider with
    | none =>
      simp only [route_query, hp, routeViaRules]
      by_cases hemp : (availableProviders mgr ctx.query_type).isEmpty <;>
        simp only [hemp, if_true, if_false]
      · exact le_refl _
      · exact tryProviders_metrics_mono env mgr.performance_metrics [] none
          _ q
    | some p =>
      simp only [route_query, hp]
      by_cases hcond :
          (mgr.providers.contains p && hsGet mgr.health_status p) = true
      · simp only [hcond, if_true]
        cases henv : env p with
        | ok r => exact le_refl _
        | error e =>
          cases fallback with
          | true =>
            simp only [if_true, routeViaRules]
            by_cases hemp :
                (availableProviders mgr ctx.query_type).isEmpty <;>
              simp only [hemp, if_true, if_false]
            · exact le_refl _
            · exact tryProviders_metrics_mono env mgr.performance_metrics
                [p] none _ q
          | false => simp
      · simp only [hcond, if_false, routeViaRules]
        by_cases hemp : (availableProviders mgr ctx.query_type).isEmpty <;>
          simp only [hemp, if_true, if_false]
        · exact le_refl _
        · exact tryProviders_metrics_mono env mgr.performance_metrics []
            none _ q

/-- Witness for claim C5 as amended: the preferred path serves claude's
response with metrics untouched, the rules path appends the serving
provider's entry, and the query count is monotone at a concrete state. -/
theorem route_query_metrics_discipline_witness :
    route_query envOk mgrPreferred ctxPreferred true =
      ⟨Except.ok sampleResp, [AIProvider.claude],
       mgrPreferred.performance_metrics⟩ ∧
    (∃ p, p ∈ availableProviders mgrFailover ctxFailover.query_type ∧
        envFailover p = Except.ok sampleResp ∧
        (route_query envFailover mgrFailover ctxFailover true).metrics =
          updatePerformanceMetrics mgrFailover.performance_metrics p
            sampleResp) ∧
    (pmEntry mgrPreferred.performance_metrics AIProvider.claude).total_queries
      ≤ (pmEntry (route_query envOk mgrPreferred ctxPreferred true).metrics
          AIProvider.claude).total_queries :=
  ⟨(route_query_metrics_discipline envOk mgrPreferred ctxPreferred true).1
     AIProvider.claude sampleResp rfl (by decide) rfl rfl,
   (route_query_metrics_discipline envFailover mgrFailover ctxFailover
       true).2.1 sampleResp (fun p hp => by simp [ctxFailover] at hp) rfl,
   (route_query_metrics_discipline envOk mgrPreferred ctxPreferred
       true).2.2 AIProvider.claude⟩

/-! Claim C9: the running-average confidence. -/

/-- The confidence field of confResp. -/
theorem confResp_confidence (c : ℚ) : (confResp c).confidence = c := rfl

/-- Recording a stream of confidences for one provider through
_update_performance_metrics maintains, at that provider's entry, the count
equal to the number recorded and the average times the count equal to the
confidence sum: the incremental-mean invariant. -/
theorem confFold_invariant (p : AIProvider) (cs : List ℚ)
    (m : List (AIProvider × ProviderMetrics)) :
    (pmEntry (cs.foldl
        (fun acc c => updatePerformanceMetrics acc p (confResp c)) m)
      p).total_queries = (pmEntry m p).total_queries + cs.length ∧
    (pmEntry (cs.foldl
        (fun acc c => updatePerformanceMetrics acc p (confResp c)) m)
      p).average_confidence *
        (((pmEntry m p).total_queries + cs.length : ℕ) : ℚ) =
      (pmEntry m p).average_confidence *
        ((pmEntry m p).total_queries : ℚ) + cs.sum := by
  induction cs generalizing m with
  | nil => simp
  | cons c rest ih =>
    simp only [List.foldl_cons]
    obtain ⟨h1, h2⟩ := ih (updatePerformanceMetrics m p (confResp c))
    rw [pmEntry_update_self] at h1 h2
    simp only [confResp_confidence] at h2
    constructor
    · rw [h1]
      simp only [List.length_cons]
      omega
    · have hne : ((pmEntry m p).total_queries : ℚ) + 1 ≠ 0 := by
        positivity
      simp only [List.length_cons, List.sum_cons]
      push_cast at h2 ⊢
      rw [div_mul_cancel₀ _ hne] at h2
      have hmul :
          ((pmEntry m p).total_queries : ℚ) + ((rest.length : ℚ) + 1) =
            ((pmEntry m p).total_queries : ℚ) + 1 + (rest.length : ℚ) := by
        ring
      rw [hmul]
      linarith [h2]

/-- Claim C9: recording confidences 0.9 then 0.7 for a fresh provider stores
average confidence 0.8 and query count 2 (exactly, in the rational model of
the floats); in general, after recording any nonempty stream of confidences
starting from no prior metrics, the stored average equals the arithmetic
mean of the recorded confidences. -/
theorem running_average_confidence :
    ((pmEntry (updatePerformanceMetrics
          (updatePerformanceMetrics [] AIProvider.claude (confResp (9/10)))
          AIProvider.claude (confResp (7/10)))
        AIProvider.claude).average_confidence = 8/10 ∧
     (pmEntry (updatePerformanceMetrics
          (updatePerformanceMetrics [] AIProvider.claude (confResp (9/10)))
          AIProvider.claude (confResp (7/10)))
        AIProvider.claude).total_queries = 2) ∧
    ∀ (p : AIProvider) (cs : List ℚ), cs ≠ [] →
      (pmEntry (cs.foldl
          (fun acc c => updatePerformanceMetrics acc p (confResp c)) [])
        p).total_queries = cs.length ∧
      (pmEntry (cs.foldl
          (fun acc c => updatePerformanceMetrics acc p (confResp c)) [])
        p).average_confidence = cs.sum / (cs.length : ℚ) := by
  constructor
  · constructor <;>
      norm_num [updatePerformanceMetrics, pmEntry, pmLookup, pmInsert,
        confResp]
  · intro p cs hne
    obtain ⟨h1, h2⟩ := confFold_invariant p cs []
    have hz : pmEntry ([] : List (AIProvider × ProviderMetrics)) p =
        ⟨0, 0, 0, 0⟩ := rfl
    rw [hz] at h1 h2
    simp only [Nat.zero_add, Nat.cast_zero, zero_mul, mul_zero,
      zero_add] at h1 h2
    have hlen : (cs.length : ℚ) ≠ 0 := by
      have h0 : cs.length ≠ 0 := by simpa using hne
      exact_mod_cast h0
    exact ⟨h1, (eq_div_iff hlen).mpr h2⟩

/-- Witness for claim C9: the general mean statement applied to the stream
0.9, 0.7. -/
theorem running_average_confidence_witness :
    ([(9 : ℚ)/10, 7/10] ≠ []) ∧
    ((pmEntry (List.foldl
          (fun acc c => updatePerformanceMetrics acc AIProvider.claude
            (confResp c)) [] [(9 : ℚ)/10, 7/10])
        AIProvider.claude).total_queries = [(9 : ℚ)/10, 7/10].length ∧
     (pmEntry (List.foldl
          (fun acc c => updatePerformanceMetrics acc AIProvider.claude
            (confResp c)) [] [(9 : ℚ)/10, 7/10])
        AIProvider.claude).average_confidence =
       [(9 : ℚ)/10, 7/10].sum / (([(9 : ℚ)/10, 7/10].length : ℕ) : ℚ)) :=
  ⟨by decide,
   running_average_confidence.2 AIProvider.claude [(9 : ℚ)/10, 7/10]
     (by decide)⟩

/-! ISO-8601 parsing lemmas for claim C8. -/

/-- Binding a present optional value steps the parser chain. -/
theorem optBind_some (a : α) (f : α → Option β) :
    (Option.some a >>= f) = f a := rfl

/-- digitChar of a value below ten is a decimal digit character. -/
theorem digitChar_isDigit (d : Nat) (h : d < 10) :
    (Nat.digitChar d).isDigit = true := by
  interval_cases d <;> decide

/-- digitToNat recovers the value a digit character was built from. -/
theorem digitToNat_digitChar (d : Nat) (h : d < 10) :
    digitToNat (Nat.digitChar d) = d := by
  interval_cases d <;> decide

/-- parse2 recovers a two-digit zero-padded value and leaves the rest. -/
theorem parse2_pad2 (n : Nat) (rest : List Char) (h : n < 100) :
    parse2 (pad2 n ++ rest) = some (n, rest) := by
  have h1 : n / 10 < 10 := by omega
  have h2 : n % 10 < 10 := by omega
  simp [pad2, parse2, digitChar_isDigit _ h1, digitChar_isDigit _ h2,
    digitToNat_digitChar _ h1, digitToNat_digitChar _ h2]
  omega

/-- parse2 recovers a two-digit zero-padded value ending the input. -/
theorem parse2_pad2_nil (n : Nat) (h : n < 100) :
    parse2 (pad2 n) = some (n, []) := by
  have h2 := parse2_pad2 n [] h
  rwa [List.append_nil] at h2

/-- parseSep consumes the expected separator. -/
theorem parseSep_cons (c : Char) (rest : List Char) :
    parseSep c (c :: rest) = some rest := by
  simp [parseSep]

/-- The ISO round trip on character lists: parsing what isoformat printed
recovers the datetime, for field values within the fixed-width bounds. -/
theorem fromIsoList_toIsoList (d : Datetime) (h : d.valid) :
    fromIsoList (toIsoList d) = some d := by
  obtain ⟨y, mo, da, ho, mi, se, us⟩ := d
  have hv : y < 10000 ∧ mo < 100 ∧ da < 100 ∧ ho < 100 ∧ mi < 100 ∧
      se < 100 ∧ us < 1000000 := h
  obtain ⟨hy, hmo, hda, hho, hmi, hse, hus⟩ := hv
  have hy1 : y / 100 < 100 := by omega
  have hy2 : y % 100 < 100 := by omega
  have e1 : y / 100 * 100 + y % 100 = y := by omega
  by_cases h0 : us = 0
  · subst h0
    simp only [toIsoList]
    rw [if_pos trivial]
    simp only [pad4, List.append_assoc, List.cons_append]
    simp only [fromIsoList]
    rw [parse2_pad2 _ _ hy1, optBind_some]
    simp only []
    rw [parse2_pad2 _ _ hy2, optBind_some]
    simp only []
    rw [parseSep_cons, optBind_some]
    rw [parse2_pad2 _ _ hmo, optBind_some]
    simp only []
    rw [parseSep_cons, optBind_some]
    rw [parse2_pad2 _ _ hda, optBind_some]
    simp only []
    rw [parseSep_cons, optBind_some]
    rw [parse2_pad2 _ _ hho, optBind_some]
    simp only []
    rw [parseSep_cons, optBind_some]
    rw [parse2_pad2 _ _ hmi, optBind_some]
    simp only []
    rw [parseSep_cons, optBind_some]
    rw [parse2_pad2 _ _ hse, optBind_some]
    simp only []
    simp [e1]
  · have hu1 : us / 10000 < 100 := by omega
    have hu2 : us / 100 % 100 < 100 := by omega
    have hu3 : us % 100 < 100 := by omega
    have e2 : us / 10000 * 10000 + us / 100 % 100 * 100 + us % 100 = us := by
      omega
    simp only [toIsoList]
    rw [if_neg h0]
    simp only [pad4, pad6, List.append_assoc, List.cons_append]
    simp only [fromIsoList]
    rw [parse2_pad2 _ _ hy1, optBind_some]
    simp only []
    rw [parse2_pad2 _ _ hy2, optBind_some]
    simp only []
    rw [parseSep_cons, optBind_some]
    rw [parse2_pad2 _ _ hmo, optBind_some]
    simp only []
    rw [parseSep_cons, optBind_some]
    rw [parse2_pad2 _ _ hda, optBind_some]
    simp only []
    rw [parseSep_cons, optBind_some]
    rw [parse2_pad2 _ _ hho, optBind_some]
    simp only []
    rw [parseSep_cons, optBind_some]
    rw [parse2_pad2 _ _ hmi, optBind_some]
    simp only []
    rw [parseSep_cons, optBind_some]
    rw [parse2_pad2 _ _ hse, optBind_some]
    simp only []
    rw [if_neg (List.cons_ne_nil _ _)]
    rw [parseSep_cons, optBind_some]
    rw [parse2_pad2 _ _ hu1, optBind_some]
    simp only []
    rw [parse2_pad2 _ _ hu2, optBind_some]
    simp only []
    rw [parse2_pad2_nil _ hu3, optBind_some]
    simp only []
    simp [e1, e2]

/-- The ISO round trip on strings. -/
theorem fromIso_toIso (d : Datetime) (h : d.valid) :
    fromIso (toIso d) = some d := by
  have hdata : (toIso d).data = toIsoList d := rfl
  show fromIsoList (toIso d).data = some d
  rw [hdata]
  exact fromIsoList_toIsoList d h

/-- Priority(p.value) recovers the Priority member. -/
theorem ofValue_value (p : Priority) : Priority.ofValue p.value = some p := by
  cases p <;> rfl

/-! Claim C8: the message wire shape round-trips. -/

/-- Claim C8: deserializing a serialized agent message recovers every field
(id, sender, recipient, message type, content, timestamp, priority), for any
message whose timestamp fields lie within the zero-padded print widths — as
every Python datetime does. -/
theorem message_round_trip (m : AgentMessage) (h : m.timestamp.valid) :
    deserialize_agent_message (serialize_agent_message m) = some m := by
  obtain ⟨mid, msd, mrc, mty, mct, mts, mpr⟩ := m
  simp [serialize_agent_message, deserialize_agent_message, jsonField,
    jsonAsStr, jsonAsNum, List.find?, fromIso_toIso _ h, ofValue_value]

/-- Witness for claim C8 at a concrete message. -/
theorem message_round_trip_witness :
    sampleRequest.timestamp.valid ∧
    deserialize_agent_message (serialize_agent_message sampleRequest) =
      some sampleRequest :=
  ⟨by decide, message_round_trip sampleRequest (by decide)⟩

end Council
